import Mathlib

/-!
Shallow embedding of the Weather-Alert-System core subsystem:
the TTL cache and fixed-window rate limiter (`backend/src/utils/cache.ts`),
the retry handler (`RetryHandler`), the Tomorrow.io weather client
(`backend/src/services/tomorrowIOService.ts`) and the alert evaluator
(`backend/src/services/alertService.ts`).

Conventions of the embedding:
* JavaScript numbers used as timestamps, counters and durations are `Nat`
  (all are non-negative integers in the source); weather readings and
  thresholds are `ℚ`.
* JavaScript `Map` objects are association lists over `String` keys; `set`
  replaces any existing binding, `delete` removes it, `size` is the length.
  Iteration order of the JS `Map` is not observable through the modelled
  operations and is not preserved.
* Falsy-defaulting (`x || d`) is modelled explicitly (`jsOrNat`, `jsOrQ`,
  `jsOrStr`); `NaN` is not modelled.
* Thrown JS errors are `Except` values carrying the error `name` and
  `message`; `async`/`await` sequencing is direct state passing, and the
  wall clock (`Date.now()`) is an explicit `now` component of the state
  that advances by the slept duration at each `sleep`.
-/

deriving instance DecidableEq for Except

namespace WeatherAlert

/-- JS falsy-defaulting `a || b` for an optional number used as `Nat`:
`undefined` and `0` fall back to the default. -/
def jsOrNat (a : Option Nat) (b : Nat) : Nat :=
  match a with
  | none => b
  | some n => if n == 0 then b else n

/-- JS falsy-defaulting `a || b` for an optional JSON number (`ℚ`). -/
def jsOrQ (a : Option ℚ) (b : ℚ) : ℚ :=
  match a with
  | none => b
  | some x => if x == 0 then b else x

/-- JS falsy-defaulting `a || b` for an optional string (empty string is falsy). -/
def jsOrStr (a : Option String) (b : String) : String :=
  match a with
  | none => b
  | some s => if s == "" then b else s

/-- Lookup in an association list modelling a JS `Map` (`map.get(key)`). -/
def mapLookup {α : Type} : List (String × α) → String → Option α
  | [], _ => none
  | (k', v) :: rest, k => if k' == k then some v else mapLookup rest k

/-- `map.set(key, v)`: bind `key` to `v`, replacing any existing binding. -/
def mapSet {α : Type} (m : List (String × α)) (k : String) (v : α) : List (String × α) :=
  (k, v) :: m.filter (fun p => !(p.1 == k))

/-- `map.delete(key)`: remove the binding for `key`. -/
def mapDelete {α : Type} (m : List (String × α)) (k : String) : List (String × α) :=
  m.filter (fun p => !(p.1 == k))

@[simp] theorem mapLookup_mapSet_self {α : Type} (m : List (String × α)) (k : String) (v : α) :
    mapLookup (mapSet m k v) k = some v := by
  simp [mapSet, mapLookup]

theorem mapDelete_mapSet_self {α : Type} (m : List (String × α)) (k : String) (v : α) :
    mapDelete (mapSet m k v) k = mapDelete m k := by
  simp only [mapSet, mapDelete, List.filter]
  simp

/-! ## TTL cache — `SimpleCache` from `backend/src/utils/cache.ts` -/

/-- `CacheEntry<T>` of `cache.ts`: stored data, store time, and TTL. -/
structure CacheEntry (T : Type) where
  data : T
  timestamp : Nat
  ttl : Nat
deriving DecidableEq

/-- `SimpleCache<T>`: the backing `Map` plus the constructor-set default TTL. -/
structure SimpleCache (T : Type) where
  defaultTTL : Nat
  cache : List (String × CacheEntry T)
deriving DecidableEq

namespace SimpleCache

/-- `SimpleCache.get`: `null` if absent; on an expired entry
(`Date.now() > entry.timestamp + entry.ttl`) delete the entry and
return `null`; otherwise return the data. First component is the
possibly-updated cache. -/
def get {T : Type} (c : SimpleCache T) (now : Nat) (key : String) :
    SimpleCache T × Option T :=
  match mapLookup c.cache key with
  | none => (c, none)
  | some entry =>
    if now > entry.timestamp + entry.ttl then
      ({ c with cache := mapDelete c.cache key }, none)
    else
      (c, some entry.data)

/-- `SimpleCache.set`: store `(data, Date.now(), ttl || defaultTTL)`. -/
def set {T : Type} (c : SimpleCache T) (now : Nat) (key : String) (data : T)
    (ttl : Option Nat) : SimpleCache T :=
  { c with cache := mapSet c.cache key ⟨data, now, jsOrNat ttl c.defaultTTL⟩ }

/-- `SimpleCache.size`: number of entries in the backing map. -/
def size {T : Type} (c : SimpleCache T) : Nat := c.cache.length

end SimpleCache

/-! ## Rate limiter — `RateLimiter` from `backend/src/utils/cache.ts` -/

/-- `RateLimitConfig` of the source. -/
structure RateLimitConfig where
  maxRequests : Nat
  windowMs : Nat
  retryAfterMs : Nat
deriving DecidableEq

/-- `RequestRecord`: request count and fixed-window reset instant. -/
structure RequestRecord where
  count : Nat
  resetTime : Nat
deriving DecidableEq

/-- `RateLimiter`: configuration plus the per-key `requests` map. -/
structure RateLimiter where
  config : RateLimitConfig
  requests : List (String × RequestRecord)
deriving DecidableEq

/-- Result shape of `RateLimiter.canProceed`. -/
structure CanProceedResult where
  canProceed : Bool
  retryAfter : Option Nat
deriving DecidableEq

namespace RateLimiter

/-- `RateLimiter.canProceed`: no record or elapsed window starts a fresh
record with count 1; an unexhausted window increments the count; an
exhausted window denies with `retryAfter = record.resetTime`. -/
def canProceed (rl : RateLimiter) (now : Nat) (key : String) :
    RateLimiter × CanProceedResult :=
  match mapLookup rl.requests key with
  | none =>
    ({ rl with requests := mapSet rl.requests key ⟨1, now + rl.config.windowMs⟩ },
     ⟨true, none⟩)
  | some record =>
    if now ≥ record.resetTime then
      ({ rl with requests := mapSet rl.requests key ⟨1, now + rl.config.windowMs⟩ },
       ⟨true, none⟩)
    else if record.count < rl.config.maxRequests then
      ({ rl with requests := mapSet rl.requests key ⟨record.count + 1, record.resetTime⟩ },
       ⟨true, none⟩)
    else
      (rl, ⟨false, some record.resetTime⟩)

/-- `RateLimiter.getRemainingRequests` (read-only; `Nat` subtraction models
the source's `Math.max(0, maxRequests - count)`). -/
def getRemainingRequests (rl : RateLimiter) (now : Nat) (key : String) : Nat :=
  match mapLookup rl.requests key with
  | none => rl.config.maxRequests
  | some record =>
    if now ≥ record.resetTime then rl.config.maxRequests
    else rl.config.maxRequests - record.count

/-- `RateLimiter.getResetTime` (read-only). -/
def getResetTime (rl : RateLimiter) (key : String) : Option Nat :=
  match mapLookup rl.requests key with
  | none => none
  | some record => some record.resetTime

end RateLimiter

/-- The module-level `tomorrowIORateLimiter` configuration:
35 requests per 1-hour window. -/
def tomorrowIORateLimiterConfig : RateLimitConfig :=
  ⟨35, 60 * 60 * 1000, 60 * 1000⟩

/-! ## Retry handler — `RetryHandler` from `backend/src/utils/retry.ts` -/

/-- A thrown JS `Error`: its `name` and `message`. -/
structure JsError where
  name : String
  message : String
deriving DecidableEq

/-- `p.isPrefixOf s` on character lists. -/
def isPrefixList : List Char → List Char → Bool
  | [], _ => true
  | _ :: _, [] => false
  | p :: ps, c :: cs => p == c && isPrefixList ps cs

/-- `String.prototype.includes` on character lists: some suffix of `s`
starts with `pat`. -/
def listIncludes : List Char → List Char → Bool
  | [], pat => pat.isEmpty
  | c :: rest, pat => isPrefixList pat (c :: rest) || listIncludes rest pat

/-- JS `s.includes(pat)`. -/
def strIncludes (s pat : String) : Bool := listIncludes s.toList pat.toList

/-- `RetryHandler.shouldNotRetry`: non-retryable iff the error message
contains one of the substrings "400", "401", "403", "500", "502", "503". -/
def shouldNotRetry (message : String) : Bool :=
  (strIncludes message "400" || strIncludes message "401" || strIncludes message "403") ||
  (strIncludes message "500" || strIncludes message "502" || strIncludes message "503")

/-- `RetryConfig` of the source. -/
structure RetryConfig where
  maxAttempts : Nat
  baseDelay : Nat
  maxDelay : Nat
  backoffMultiplier : Nat
deriving DecidableEq

/-- The `RetryHandler` constructor: falsy-defaulting each field of the
partial config (`maxAttempts || 3`, `baseDelay || 1000`, `maxDelay || 10000`,
`backoffMultiplier || 2`). -/
def mkRetryConfig (maxAttempts baseDelay maxDelay backoffMultiplier : Option Nat) :
    RetryConfig :=
  ⟨jsOrNat maxAttempts 3, jsOrNat baseDelay 1000,
   jsOrNat maxDelay 10000, jsOrNat backoffMultiplier 2⟩

/-- The module-level `defaultRetryHandler` configuration:
`maxAttempts = 3, baseDelay = 1000, maxDelay = 5000, backoffMultiplier = 2`. -/
def defaultRetryConfig : RetryConfig :=
  mkRetryConfig (some 3) (some 1000) (some 5000) (some 2)

/-- `RetryResult<T>` of the source (the wall-clock `lastAttempt` timestamp
is not modelled). -/
structure RetryResult (α : Type) where
  success : Bool
  data : Option α
  error : Option JsError
  attempts : Nat
deriving DecidableEq

/-- The loop body of `RetryHandler.execute`, generic in the state `σ`
threaded through the retried operation (the operation reads and writes
shared cache/limiter state and the clock). `fuel` is the number of
attempts still available; the fuel-exhausted case is the source's
unreachable trailing `return`. Alongside the `RetryResult` it returns
the list of slept delays (in order) and the final state. -/
def execGo {σ α : Type} (cfg : RetryConfig) (fn : σ → Except JsError α × σ)
    (sleep : Nat → σ → σ) : Nat → Nat → Nat → σ → RetryResult α × List Nat × σ
  | _, _, 0, s => (⟨false, none, none, cfg.maxAttempts⟩, [], s)
  | attempt, delay, fuel + 1, s =>
    match fn s with
    | (.ok v, s') => (⟨true, some v, none, attempt⟩, [], s')
    | (.error e, s') =>
      if shouldNotRetry e.message then
        (⟨false, none, some e, attempt⟩, [], s')
      else if attempt == cfg.maxAttempts then
        (⟨false, none, some e, attempt⟩, [], s')
      else
        let s'' := sleep delay s'
        let next := execGo cfg fn sleep (attempt + 1)
          (min (delay * cfg.backoffMultiplier) cfg.maxDelay) fuel s''
        (next.1, delay :: next.2.1, next.2.2)

/-- `RetryHandler.execute`: run the loop from attempt 1 with the initial
delay `baseDelay`; the loop makes at most `maxAttempts` attempts. -/
def execute {σ α : Type} (cfg : RetryConfig) (fn : σ → Except JsError α × σ)
    (sleep : Nat → σ → σ) (s : σ) : RetryResult α × List Nat × σ :=
  execGo cfg fn sleep 1 cfg.baseDelay cfg.maxAttempts s

/-- A pure operation viewed as a stateful one: the state is the count of
calls already made, and the outcome of the `m+1`-st call is `g (m + 1)`. -/
def pureStep {α : Type} (g : Nat → Except JsError α) (m : Nat) :
    Except JsError α × Nat :=
  (g (m + 1), m + 1)

/-- Sleeping does not affect the call-count state of a pure operation. -/
def pureSleep (_d m : Nat) : Nat := m

/-- `execute` for a pure operation described by its outcome at each attempt
index (1-based). Returns the result and the slept delays. -/
def runRetry {α : Type} (cfg : RetryConfig) (g : Nat → Except JsError α) :
    RetryResult α × List Nat :=
  let r := execute cfg (pureStep g) pureSleep 0
  (r.1, r.2.1)

/-- The backoff schedule as the spec words it (for comparison with the
code's slept delays): starting from `d`, each subsequent delay is the
previous one times `backoffMultiplier`, capped at `maxDelay`. -/
def specBackoffDelays (cfg : RetryConfig) : Nat → Nat → List Nat
  | _, 0 => []
  | d, n + 1 => d :: specBackoffDelays cfg (min (d * cfg.backoffMultiplier) cfg.maxDelay) n

/-! ## Weather client — `TomorrowIOService` from
`backend/src/services/tomorrowIOService.ts` -/

/-- Left part of `parseLocation`'s regex `^(-?\d+\.?\d*),(-?\d+\.?\d*)$`
applied to one component: optional minus, one or more digits, then
optionally a dot followed by zero or more digits. -/
def matchNum (cs : List Char) : Bool :=
  let cs := match cs with
    | '-' :: r => r
    | r => r
  let p := cs.span (fun c => c.isDigit)
  !p.1.isEmpty &&
    (p.2.isEmpty ||
      (match p.2 with
       | '.' :: fr => fr.all (fun c => c.isDigit)
       | _ => false))

/-- Split a character list at every comma (JS `String.split` shape). -/
def splitOnComma : List Char → List (List Char)
  | [] => [[]]
  | c :: rest =>
    let r := splitOnComma rest
    if c == ',' then [] :: r
    else
      match r with
      | [] => [[c]]
      | h :: t => (c :: h) :: t

/-- The coordinate test of `parseLocation`: the source regex
`^(-?\d+\.?\d*),(-?\d+\.?\d*)$`, i.e. exactly one comma separating two
number components in `matchNum` form. -/
def coordMatch (s : String) : Bool :=
  match splitOnComma s.toList with
  | [a, b] => matchNum a && matchNum b
  | _ => false

/-- One component of the regex `^-?\d+(\.\d+)?,-?\d+(\.\d+)?$` named by the
spec: a dot must be followed by at least one digit. -/
def specMatchNum (cs : List Char) : Bool :=
  let cs := match cs with
    | '-' :: r => r
    | r => r
  let p := cs.span (fun c => c.isDigit)
  !p.1.isEmpty &&
    (p.2.isEmpty ||
      (match p.2 with
       | '.' :: fr => !fr.isEmpty && fr.all (fun c => c.isDigit)
       | _ => false))

/-- The spec's claimed coordinate regex `^-?\d+(\.\d+)?,-?\d+(\.\d+)?$`
as a whole-string test, for comparison with the source's `coordMatch`. -/
def specCoordMatch (s : String) : Bool :=
  match splitOnComma s.toList with
  | [a, b] => specMatchNum a && specMatchNum b
  | _ => false

/-- The `cityCoordinates` table of `parseLocation`: the in-code stand-in
for the external geocoding collaborator. -/
def cityCoordinates : List (String × String) :=
  [("Tel Aviv, Israel", "32.0853,34.7818"),
   ("New York, NY", "40.7128,-74.0060"),
   ("London, UK", "51.5074,-0.1278"),
   ("Tokyo, Japan", "35.6762,139.6503"),
   ("Sydney, Australia", "-33.8688,151.2093"),
   ("Toronto, Canada", "43.6532,-79.3832"),
   ("Berlin, Germany", "52.5200,13.4050"),
   ("Paris, France", "48.8566,2.3522"),
   ("Mumbai, India", "19.0760,72.8777"),
   ("SÃ£o Paulo, Brazil", "-23.5505,-46.6333"),
   ("Cape Town, South Africa", "-33.9249,18.4241")]

/-- The message of the error thrown when a location is neither a
coordinate pair nor a known city. -/
def locationErrorMsg (location : String) : String :=
  "Location \"" ++ location ++
    "\" not supported. Please use coordinates (lat,lng) format or a supported city name."

/-- `TomorrowIOService.parseLocation`: a string matching the coordinate
regex is used as coordinates verbatim; otherwise the city table is
consulted; otherwise the location-not-supported error is thrown. -/
def parseLocation (location : String) : Except String String :=
  if coordMatch location then .ok location
  else
    match mapLookup cityCoordinates location with
    | some c => .ok c
    | none => .error (locationErrorMsg location)

/-- The `weatherDescriptions` table of `getWeatherDescription`. -/
def weatherDescriptions : List (ℚ × String) :=
  [(1000, "Clear"), (1001, "Cloudy"), (1100, "Mostly Clear"),
   (1101, "Partly Cloudy"), (1102, "Mostly Cloudy"), (2000, "Fog"),
   (2100, "Light Fog"), (4000, "Drizzle"), (4001, "Rain"),
   (4200, "Light Rain"), (4201, "Heavy Rain"), (5000, "Snow"),
   (5001, "Flurries"), (5100, "Light Snow"), (5101, "Heavy Snow"),
   (6000, "Freezing Drizzle"), (6001, "Freezing Rain"),
   (6200, "Light Freezing Rain"), (6201, "Heavy Freezing Rain"),
   (7000, "Ice Pellets"), (7101, "Heavy Ice Pellets"),
   (7102, "Light Ice Pellets"), (8000, "Thunderstorm")]

/-- `TomorrowIOService.getWeatherDescription`: table lookup, defaulting to
"Unknown". -/
def getWeatherDescription (code : ℚ) : String :=
  match weatherDescriptions.find? (fun p => p.1 == code) with
  | some p => p.2
  | none => "Unknown"

/-- `WeatherData` of the source. -/
structure WeatherData where
  temperature : ℚ
  feelsLike : ℚ
  humidity : ℚ
  windSpeed : ℚ
  windDirection : ℚ
  precipitation : ℚ
  pressure : ℚ
  visibility : ℚ
  uvIndex : ℚ
  cloudCover : ℚ
  weatherCode : ℚ
  weatherDescription : String
  timestamp : String
deriving DecidableEq

/-- The `data.data.values` object of a successful provider response:
each numeric field may be missing. -/
structure RawValues where
  temperature : Option ℚ := none
  temperatureApparent : Option ℚ := none
  humidity : Option ℚ := none
  windSpeed : Option ℚ := none
  windDirection : Option ℚ := none
  precipitationIntensity : Option ℚ := none
  pressureSurfaceLevel : Option ℚ := none
  visibility : Option ℚ := none
  uvIndex : Option ℚ := none
  cloudCover : Option ℚ := none
  weatherCode : Option ℚ := none
deriving DecidableEq

/-- Outcome of one physical HTTP exchange with the upstream provider
(an external collaborator): a JSON body with `data.values` present, a
body without them, an HTTP error status (with optional `retry-after`
header in seconds), or a network-level failure with the given message. -/
inductive NetResp where
  | success (values : RawValues) (time : Option String)
  | invalidFormat
  | httpError (status : Nat) (retryAfterHeader : Option Nat)
  | networkError (message : String)

/-- The shared mutable state a weather-client call runs against: the
clock, the module-level `weatherCache` and `tomorrowIORateLimiter`
singletons, and the count of network exchanges performed so far (the
index into the network oracle). -/
structure SysState where
  now : Nat
  weatherCache : SimpleCache WeatherData
  limiter : RateLimiter
  netCalls : Nat
deriving DecidableEq

/-- `await sleep(d)`: the clock advances by the slept duration. -/
def sleepSys (d : Nat) (s : SysState) : SysState := { s with now := s.now + d }

/-- Message of the `RateLimitError` built by the request interceptor when
admission is denied and `retryAfter` is truthy; `isoStr` is
`new Date(retryAfter).toISOString()` (an external date-formatting
function passed in as a parameter). -/
def rlDeniedMsg (isoStr : String) : String :=
  "Rate limit exceeded. Try again after " ++ isoStr

/-- Message of the `RateLimitError` built by the request interceptor when
admission is denied and `retryAfter` is falsy. -/
def rlGenericMsg : String := "Rate limit exceeded. Please try again later."

/-- Message of the `RateLimitError` built by the response interceptor on
an HTTP 429, from the `retry-after` header (seconds; default 60s),
with `Math.ceil(ms / 1000)`. -/
def rl429Msg (retryAfterHeader : Option Nat) : String :=
  let retryAfterMs := match retryAfterHeader with
    | some sec => sec * 1000
    | none => 60000
  "Rate limit exceeded. Try again in " ++ toString ((retryAfterMs + 999) / 1000) ++ " seconds"

/-- Build a `WeatherData` from a successful response: each missing or
zero numeric field falls back to 0 (`values.x || 0`), the description
comes from the code table, and a missing `time` falls back to
`new Date().toISOString()` (`nowIso`). -/
def buildWeatherData (v : RawValues) (time : Option String) (nowIso : String) :
    WeatherData :=
  { temperature := jsOrQ v.temperature 0
    feelsLike := jsOrQ v.temperatureApparent 0
    humidity := jsOrQ v.humidity 0
    windSpeed := jsOrQ v.windSpeed 0
    windDirection := jsOrQ v.windDirection 0
    precipitation := jsOrQ v.precipitationIntensity 0
    pressure := jsOrQ v.pressureSurfaceLevel 0
    visibility := jsOrQ v.visibility 0
    uvIndex := jsOrQ v.uvIndex 0
    cloudCover := jsOrQ v.cloudCover 0
    weatherCode := jsOrQ v.weatherCode 0
    weatherDescription := getWeatherDescription (jsOrQ v.weatherCode 0)
    timestamp := jsOrStr time nowIso }

/-- `TomorrowIOService.fetchWeatherData`, one attempt of the retried
operation: parse the location (a failure throws before any rate-limiter
or network involvement); then the axios request interceptor consults
`tomorrowIORateLimiter.canProceed("weather-api")` and rejects with a
`RateLimitError` on denial (before any network exchange); if admitted,
perform the HTTP exchange (`net` is the oracle for the external
provider, indexed by the running exchange count) and run the response
interceptor: a 429 becomes a `RateLimitError`, any other HTTP error is
rejected with the axios message `Request failed with status code N`,
and a well-formed body is parsed into a `WeatherData`. `iso` models
`Date.prototype.toISOString`. -/
def fetchWeatherData (iso : Nat → String) (net : Nat → NetResp) (location : String)
    (s : SysState) : Except JsError WeatherData × SysState :=
  match parseLocation location with
  | .error msg => (.error ⟨"Error", msg⟩, s)
  | .ok _coords =>
    match RateLimiter.canProceed s.limiter s.now "weather-api" with
    | (limiter', res) =>
      if res.canProceed then
        let s := { s with limiter := limiter', netCalls := s.netCalls + 1 }
        match net (s.netCalls - 1) with
        | .success values time =>
          (.ok (buildWeatherData values time (iso s.now)), s)
        | .invalidFormat =>
          (.error ⟨"Error", "Invalid response format from Tomorrow.io API"⟩, s)
        | .httpError status retryAfterHeader =>
          if status == 429 then
            (.error ⟨"RateLimitError", rl429Msg retryAfterHeader⟩, s)
          else
            (.error ⟨"AxiosError", "Request failed with status code " ++ toString status⟩, s)
        | .networkError msg => (.error ⟨"Error", msg⟩, s)
      else
        let s := { s with limiter := limiter' }
        match res.retryAfter with
        | some ra =>
          if ra == 0 then (.error ⟨"RateLimitError", rlGenericMsg⟩, s)
          else (.error ⟨"RateLimitError", rlDeniedMsg (iso ra)⟩, s)
        | none => (.error ⟨"RateLimitError", rlGenericMsg⟩, s)

/-- Observability of the retry run inside `getCurrentWeather`: the number
of attempts the retry handler reported and the delays it slept. -/
structure FetchStats where
  attempts : Nat
  sleeps : List Nat
deriving DecidableEq

/-- `TomorrowIOService.getCurrentWeather`: check the `weather:<location>`
cache key first and return a hit without touching the rate limiter or
network; on a miss run `defaultRetryHandler.execute(fetchWeatherData)`,
throw the terminal error on failure, and on success cache the snapshot
for 10 minutes and return it. The impossible `data` missing-on-success
branches model the source's non-null assertion `result.data!`. -/
def getCurrentWeather (iso : Nat → String) (net : Nat → NetResp) (location : String)
    (s : SysState) : Except JsError WeatherData × SysState × FetchStats :=
  let cacheKey := "weather:" ++ location
  match SimpleCache.get s.weatherCache s.now cacheKey with
  | (cache', some cachedData) =>
    (.ok cachedData, { s with weatherCache := cache' }, ⟨0, []⟩)
  | (cache', none) =>
    let s1 := { s with weatherCache := cache' }
    match execute defaultRetryConfig (fetchWeatherData iso net location) sleepSys s1 with
    | (result, sleeps, s2) =>
      if result.success then
        match result.data with
        | some d =>
          (.ok d,
           { s2 with weatherCache :=
               SimpleCache.set s2.weatherCache s2.now cacheKey d (some (10 * 60 * 1000)) },
           ⟨result.attempts, sleeps⟩)
        | none => (.error ⟨"Error", "undefined"⟩, s2, ⟨result.attempts, sleeps⟩)
      else
        (.error (result.error.getD ⟨"Error", "undefined"⟩), s2, ⟨result.attempts, sleeps⟩)

/-- Result shape of `TomorrowIOService.getRateLimitInfo`. -/
structure RateLimitInfo where
  remainingRequests : Nat
  resetTime : Option Nat
  canProceed : Bool
deriving DecidableEq

/-- `TomorrowIOService.getRateLimitInfo`: read the remaining count and
reset time for the shared "weather-api" key, then call `canProceed` on
that same key and report its boolean; the state returned is the one
`canProceed` produced. -/
def getRateLimitInfo (rl : RateLimiter) (now : Nat) : RateLimiter × RateLimitInfo :=
  let remaining := RateLimiter.getRemainingRequests rl now "weather-api"
  let resetTime := RateLimiter.getResetTime rl "weather-api"
  match RateLimiter.canProceed rl now "weather-api" with
  | (rl', res) => (rl', ⟨remaining, resetTime, res.canProceed⟩)

/-! ## Alert evaluator — `AlertService` from
`backend/src/services/alertService.ts` -/

/-- An alert rule row as consumed by the evaluator. -/
structure Alert where
  id : String
  name : String
  location : String
  parameter : String
  operator : String
  threshold : ℚ
deriving DecidableEq

/-- `AlertEvaluationResult` of the source (the wall-clock `timestamp`
field is not modelled). -/
structure AlertEvaluationResult where
  alertId : String
  alertName : String
  location : String
  parameter : String
  threshold : ℚ
  currentValue : ℚ
  isTriggered : Bool
deriving DecidableEq

/-- An `alertHistory` row written by `saveAlertEvaluation`. -/
structure AlertHistoryRow where
  alertId : String
  isTriggered : Bool
  currentValue : ℚ
  thresholdValue : ℚ
deriving DecidableEq

/-- The `parameterMap` of `AlertService.getParameterValue`: monitored
parameter name to `WeatherData` accessor. -/
def parameterMap : List (String × (WeatherData → ℚ)) :=
  [("temperature", WeatherData.temperature),
   ("feelsLike", WeatherData.feelsLike),
   ("humidity", WeatherData.humidity),
   ("windSpeed", WeatherData.windSpeed),
   ("windDirection", WeatherData.windDirection),
   ("precipitation", WeatherData.precipitation),
   ("pressure", WeatherData.pressure),
   ("visibility", WeatherData.visibility),
   ("uvIndex", WeatherData.uvIndex),
   ("cloudCover", WeatherData.cloudCover)]

/-- `AlertService.getParameterValue`: unknown parameters throw; known ones
read the field with a final `|| 0` falsy-defaulting. -/
def getParameterValue (weatherData : WeatherData) (parameter : String) :
    Except String ℚ :=
  match mapLookup parameterMap parameter with
  | none => .error ("Unknown weather parameter: " ++ parameter)
  | some field => .ok (jsOrQ (some (field weatherData)) 0)

/-- `AlertService.evaluateCondition`: standard comparisons for
`gt`/`gte`/`lt`/`lte`, an absolute tolerance of 0.01 for `eq`/`ne`, and an
unknown-operator error otherwise. -/
def evaluateCondition (currentValue : ℚ) (operator : String) (threshold : ℚ) :
    Except String Bool :=
  if operator == "gt" then .ok (decide (currentValue > threshold))
  else if operator == "gte" then .ok (decide (currentValue ≥ threshold))
  else if operator == "lt" then .ok (decide (currentValue < threshold))
  else if operator == "lte" then .ok (decide (currentValue ≤ threshold))
  else if operator == "eq" then .ok (decide (|currentValue - threshold| < 0.01))
  else if operator == "ne" then .ok (decide (|currentValue - threshold| ≥ 0.01))
  else .error ("Unknown operator: " ++ operator)

/-- `AlertService.evaluateAlert`: fetch the snapshot for the alert's
location through the weather client, extract the monitored parameter,
evaluate the condition; any failure on the way propagates as the thrown
error. -/
def evaluateAlert (iso : Nat → String) (net : Nat → NetResp) (alert : Alert)
    (s : SysState) : Except JsError AlertEvaluationResult × SysState :=
  match getCurrentWeather iso net alert.location s with
  | (.error e, s', _) => (.error e, s')
  | (.ok weatherData, s', _) =>
    match getParameterValue weatherData alert.parameter with
    | .error msg => (.error ⟨"Error", msg⟩, s')
    | .ok currentValue =>
      match evaluateCondition currentValue alert.operator alert.threshold with
      | .error msg => (.error ⟨"Error", msg⟩, s')
      | .ok isTriggered =>
        (.ok ⟨alert.id, alert.name, alert.location, alert.parameter,
              alert.threshold, currentValue, isTriggered⟩, s')

/-- The `for` loop of `AlertService.evaluateAllAlerts` with its running
`results` array and the history rows appended by `saveAlertEvaluation`
(the external rule store is modelled as a reliable appender): a
successful evaluation pushes its result and appends one history row; a
failure is caught, logged, and the loop continues with the next alert. -/
def evaluateAllLoop (iso : Nat → String) (net : Nat → NetResp) :
    List Alert → List AlertEvaluationResult → List AlertHistoryRow → SysState →
    List AlertEvaluationResult × List AlertHistoryRow × SysState
  | [], results, history, s => (results, history, s)
  | alert :: rest, results, history, s =>
    match evaluateAlert iso net alert s with
    | (.ok r, s') =>
      evaluateAllLoop iso net rest (results ++ [r])
        (history ++ [⟨r.alertId, r.isTriggered, r.currentValue, r.threshold⟩]) s'
    | (.error _, s') => evaluateAllLoop iso net rest results history s'

/-- `AlertService.evaluateAllAlerts` over the given list of active alerts. -/
def evaluateAllAlerts (iso : Nat → String) (net : Nat → NetResp)
    (activeAlerts : List Alert) (s : SysState) :
    List AlertEvaluationResult × List AlertHistoryRow × SysState :=
  evaluateAllLoop iso net activeAlerts [] [] s

/-- The per-alert outcomes of a cycle, in order, with the state threaded
through every evaluation (each alert is evaluated whether or not its
predecessors failed). -/
def alertOutcomes (iso : Nat → String) (net : Nat → NetResp) :
    List Alert → SysState → List (Except JsError AlertEvaluationResult) × SysState
  | [], s => ([], s)
  | alert :: rest, s =>
    match evaluateAlert iso net alert s with
    | (o, s') =>
      match alertOutcomes iso net rest s' with
      | (os, s'') => (o :: os, s'')

/-! ## Association-map lemmas -/

theorem mapLookup_mapDelete_self {α : Type} (m : List (String × α)) (k : String) :
    mapLookup (mapDelete m k) k = none := by
  induction m with
  | nil => rfl
  | cons p rest ih =>
    rcases hp : (p.1 == k) with _ | _
    · simpa [mapDelete, List.filter_cons, hp, mapLookup] using ih
    · simpa [mapDelete, List.filter_cons, hp, mapLookup] using ih

theorem mapSet_eq_cons_mapDelete {α : Type} (m : List (String × α)) (k : String) (v : α) :
    mapSet m k v = (k, v) :: mapDelete m k := rfl

/-! ## Claim theorems -/

/-- C5: A value stored at `t0` with (non-zero) TTL `d` is returned by
`get` at every `t` with `t0 ≤ t ≤ t0 + d` (without touching the store);
a `get` at any `t > t0 + d` returns absent, evicts the entry, and the
entry no longer counts towards `size()`. -/
theorem cache_get_ttl_expiry {T : Type} (c : SimpleCache T) (key : String) (v : T)
    (t0 d t : Nat) (hd : d ≠ 0) :
    ((t0 ≤ t → t ≤ t0 + d →
       SimpleCache.get (SimpleCache.set c t0 key v (some d)) t key =
         (SimpleCache.set c t0 key v (some d), some v)) ∧
     (t0 + d < t →
       (SimpleCache.get (SimpleCache.set c t0 key v (some d)) t key).2 = none ∧
       mapLookup (SimpleCache.get (SimpleCache.set c t0 key v (some d)) t key).1.cache key
         = none ∧
       SimpleCache.size (SimpleCache.get (SimpleCache.set c t0 key v (some d)) t key).1 + 1 =
         SimpleCache.size (SimpleCache.set c t0 key v (some d)))) := by
  have heff : jsOrNat (some d) c.defaultTTL = d := by
    simp [jsOrNat, hd]
  constructor
  · intro _h1 h2
    simp only [SimpleCache.get, SimpleCache.set, mapLookup_mapSet_self, heff]
    rw [if_neg (by omega)]
  · intro h
    simp only [SimpleCache.get, SimpleCache.set, mapLookup_mapSet_self, heff]
    rw [if_pos (by omega)]
    refine ⟨rfl, ?_, ?_⟩
    · simpa using mapLookup_mapDelete_self (mapSet c.cache key ⟨v, t0, d⟩) key
    · simp only [SimpleCache.size]
      rw [mapDelete_mapSet_self, mapSet_eq_cons_mapDelete]
      simp

/-- Witness for C5 at a concrete input: TTL 100, stored at 0, read at 50
(hit) and at 150 (miss plus eviction). -/
theorem cache_get_ttl_expiry_witness :
    (SimpleCache.get (SimpleCache.set (⟨600000, []⟩ : SimpleCache Nat) 0 "k" 7 (some 100))
        50 "k" =
      (SimpleCache.set (⟨600000, []⟩ : SimpleCache Nat) 0 "k" 7 (some 100), some 7)) ∧
    ((SimpleCache.get (SimpleCache.set (⟨600000, []⟩ : SimpleCache Nat) 0 "k" 7 (some 100))
        150 "k").2 = none ∧
     mapLookup (SimpleCache.get
        (SimpleCache.set (⟨600000, []⟩ : SimpleCache Nat) 0 "k" 7 (some 100)) 150 "k").1.cache
        "k" = none ∧
     SimpleCache.size (SimpleCache.get
        (SimpleCache.set (⟨600000, []⟩ : SimpleCache Nat) 0 "k" 7 (some 100)) 150 "k").1 + 1 =
       SimpleCache.size (SimpleCache.set (⟨600000, []⟩ : SimpleCache Nat) 0 "k" 7 (some 100))) :=
  ⟨(cache_get_ttl_expiry (⟨600000, []⟩ : SimpleCache Nat) "k" 7 0 100 50 (by decide)).1
      (by omega) (by omega),
   (cache_get_ttl_expiry (⟨600000, []⟩ : SimpleCache Nat) "k" 7 0 100 150 (by decide)).2
      (by omega)⟩

/-- C10: `set` with an explicit TTL of 0 stores the entry with the
default TTL (the `ttl || defaultTTL` falsy-defaulting), so a `get` within
the default TTL still returns the value. -/
theorem cache_set_zero_ttl {T : Type} (c : SimpleCache T) (key : String) (v : T)
    (t0 t : Nat) (_h1 : t0 ≤ t) (h2 : t ≤ t0 + c.defaultTTL) :
    mapLookup (SimpleCache.set c t0 key v (some 0)).cache key =
      some ⟨v, t0, c.defaultTTL⟩ ∧
    SimpleCache.get (SimpleCache.set c t0 key v (some 0)) t key =
      (SimpleCache.set c t0 key v (some 0), some v) := by
  have heff : jsOrNat (some 0) c.defaultTTL = c.defaultTTL := by simp [jsOrNat]
  constructor
  · simp only [SimpleCache.set, heff, mapLookup_mapSet_self]
  · simp only [SimpleCache.get, SimpleCache.set, mapLookup_mapSet_self, heff]
    rw [if_neg (by omega)]

/-- Witness for C10 at a concrete input: `set` with TTL 0 into a cache
whose default TTL is 600000; a `get` at t = 1000 still hits. -/
theorem cache_set_zero_ttl_witness :
    mapLookup (SimpleCache.set (⟨600000, []⟩ : SimpleCache Nat) 0 "k" 7 (some 0)).cache "k" =
      some ⟨7, 0, 600000⟩ ∧
    SimpleCache.get (SimpleCache.set (⟨600000, []⟩ : SimpleCache Nat) 0 "k" 7 (some 0))
        1000 "k" =
      (SimpleCache.set (⟨600000, []⟩ : SimpleCache Nat) 0 "k" 7 (some 0), some 7) :=
  cache_set_zero_ttl (⟨600000, []⟩ : SimpleCache Nat) "k" 7 0 1000 (by omega) (by decide)

/-- Iterate `canProceed` for one key at the given sequence of instants,
returning the per-call results and the final limiter. -/
def canProceedRun (key : String) : List Nat → RateLimiter → List CanProceedResult × RateLimiter
  | [], rl => ([], rl)
  | t :: ts, rl =>
    match RateLimiter.canProceed rl t key with
    | (rl', res) =>
      match canProceedRun key ts rl' with
      | (rs, rlF) => (res :: rs, rlF)

/-- C4: With `maxRequests = 3, windowMs = 1000` and no prior record for
the key: three `canProceed` calls inside one window are allowed, the
fourth is denied with `retryAfter` equal to the window's reset instant
`t1 + 1000`, and the first call at or after the reset instant is allowed
and replaces the record with `{count := 1, resetTime := t5 + 1000}`. -/
theorem rateLimiter_fixedWindow (key : String) (reqs : List (String × RequestRecord))
    (rAfter t1 t2 t3 t4 t5 : Nat)
    (h0 : mapLookup reqs key = none)
    (_h12 : t1 ≤ t2) (h23 : t2 ≤ t3) (h34 : t3 ≤ t4)
    (hwin : t4 < t1 + 1000) (h5 : t1 + 1000 ≤ t5) :
    (canProceedRun key [t1, t2, t3, t4, t5] ⟨⟨3, 1000, rAfter⟩, reqs⟩).1 =
      [⟨true, none⟩, ⟨true, none⟩, ⟨true, none⟩,
       ⟨false, some (t1 + 1000)⟩, ⟨true, none⟩] ∧
    mapLookup (canProceedRun key [t1, t2, t3, t4, t5] ⟨⟨3, 1000, rAfter⟩, reqs⟩).2.requests
      key = some ⟨1, t5 + 1000⟩ := by
  have e1 : RateLimiter.canProceed ⟨⟨3, 1000, rAfter⟩, reqs⟩ t1 key =
      (⟨⟨3, 1000, rAfter⟩, mapSet reqs key ⟨1, t1 + 1000⟩⟩, ⟨true, none⟩) := by
    simp [RateLimiter.canProceed, h0]
  have e2 : RateLimiter.canProceed ⟨⟨3, 1000, rAfter⟩, mapSet reqs key ⟨1, t1 + 1000⟩⟩
      t2 key =
      (⟨⟨3, 1000, rAfter⟩,
        mapSet (mapSet reqs key ⟨1, t1 + 1000⟩) key ⟨2, t1 + 1000⟩⟩, ⟨true, none⟩) := by
    simp only [RateLimiter.canProceed, mapLookup_mapSet_self]
    rw [if_neg (by omega), if_pos (by norm_num)]
  have e3 : RateLimiter.canProceed
      ⟨⟨3, 1000, rAfter⟩, mapSet (mapSet reqs key ⟨1, t1 + 1000⟩) key ⟨2, t1 + 1000⟩⟩
      t3 key =
      (⟨⟨3, 1000, rAfter⟩,
        mapSet (mapSet (mapSet reqs key ⟨1, t1 + 1000⟩) key ⟨2, t1 + 1000⟩) key
          ⟨3, t1 + 1000⟩⟩, ⟨true, none⟩) := by
    simp only [RateLimiter.canProceed, mapLookup_mapSet_self]
    rw [if_neg (by omega), if_pos (by norm_num)]
  have e4 : RateLimiter.canProceed
      ⟨⟨3, 1000, rAfter⟩,
       mapSet (mapSet (mapSet reqs key ⟨1, t1 + 1000⟩) key ⟨2, t1 + 1000⟩) key
         ⟨3, t1 + 1000⟩⟩ t4 key =
      (⟨⟨3, 1000, rAfter⟩,
        mapSet (mapSet (mapSet reqs key ⟨1, t1 + 1000⟩) key ⟨2, t1 + 1000⟩) key
          ⟨3, t1 + 1000⟩⟩, ⟨false, some (t1 + 1000)⟩) := by
    simp only [RateLimiter.canProceed, mapLookup_mapSet_self]
    rw [if_neg (by omega), if_neg (by norm_num)]
  have e5 : RateLimiter.canProceed
      ⟨⟨3, 1000, rAfter⟩,
       mapSet (mapSet (mapSet reqs key ⟨1, t1 + 1000⟩) key ⟨2, t1 + 1000⟩) key
         ⟨3, t1 + 1000⟩⟩ t5 key =
      (⟨⟨3, 1000, rAfter⟩,
        mapSet (mapSet (mapSet (mapSet reqs key ⟨1, t1 + 1000⟩) key ⟨2, t1 + 1000⟩) key
          ⟨3, t1 + 1000⟩) key ⟨1, t5 + 1000⟩⟩, ⟨true, none⟩) := by
    simp only [RateLimiter.canProceed, mapLookup_mapSet_self]
    rw [if_pos (by omega)]
  constructor
  · simp only [canProceedRun, e1, e2, e3, e4, e5]
  · simp only [canProceedRun, e1, e2, e3, e4, e5, mapLookup_mapSet_self]

/-- Witness for C4 at concrete inputs: calls at 0, 100, 200, 300 and 1000
against an empty limiter. -/
theorem rateLimiter_fixedWindow_witness :
    (canProceedRun "weather-api" [0, 100, 200, 300, 1000] ⟨⟨3, 1000, 0⟩, []⟩).1 =
      [⟨true, none⟩, ⟨true, none⟩, ⟨true, none⟩, ⟨false, some 1000⟩, ⟨true, none⟩] ∧
    mapLookup (canProceedRun "weather-api" [0, 100, 200, 300, 1000]
      ⟨⟨3, 1000, 0⟩, []⟩).2.requests "weather-api" = some ⟨1, 2000⟩ :=
  rateLimiter_fixedWindow "weather-api" [] 0 0 100 200 300 1000 rfl
    (by omega) (by omega) (by omega) (by omega) (by omega)

/-- C9: `getRateLimitInfo` calls `canProceed` on the shared
"weather-api" key, so whenever the current window is not exhausted the
introspection itself consumes one admission — creating a fresh record
with count 1 when there is no live record, or incrementing the live
record's count — and thereby strictly decreases `getRemainingRequests`;
only when the window is exhausted is the state left unchanged. -/
theorem getRateLimitInfo_mutates (rl : RateLimiter) (now : Nat)
    (hmax : 1 ≤ rl.config.maxRequests) (hwin : 1 ≤ rl.config.windowMs) :
    (mapLookup rl.requests "weather-api" = none →
      mapLookup (getRateLimitInfo rl now).1.requests "weather-api" =
        some ⟨1, now + rl.config.windowMs⟩ ∧
      RateLimiter.getRemainingRequests (getRateLimitInfo rl now).1 now "weather-api" <
        RateLimiter.getRemainingRequests rl now "weather-api") ∧
    (∀ r, mapLookup rl.requests "weather-api" = some r → now ≥ r.resetTime →
      mapLookup (getRateLimitInfo rl now).1.requests "weather-api" =
        some ⟨1, now + rl.config.windowMs⟩ ∧
      RateLimiter.getRemainingRequests (getRateLimitInfo rl now).1 now "weather-api" <
        RateLimiter.getRemainingRequests rl now "weather-api") ∧
    (∀ r, mapLookup rl.requests "weather-api" = some r → now < r.resetTime →
      r.count < rl.config.maxRequests →
      mapLookup (getRateLimitInfo rl now).1.requests "weather-api" =
        some ⟨r.count + 1, r.resetTime⟩ ∧
      RateLimiter.getRemainingRequests (getRateLimitInfo rl now).1 now "weather-api" <
        RateLimiter.getRemainingRequests rl now "weather-api") ∧
    (∀ r, mapLookup rl.requests "weather-api" = some r → now < r.resetTime →
      ¬ r.count < rl.config.maxRequests →
      (getRateLimitInfo rl now).1 = rl) := by
  refine ⟨?_, ?_, ?_, ?_⟩
  · intro h
    have hc : RateLimiter.canProceed rl now "weather-api" =
        (⟨rl.config,
          mapSet rl.requests "weather-api" ⟨1, now + rl.config.windowMs⟩⟩, ⟨true, none⟩) := by
      simp [RateLimiter.canProceed, h]
    constructor
    · simp [getRateLimitInfo, hc]
    · simp only [getRateLimitInfo, hc]
      simp only [RateLimiter.getRemainingRequests, h, mapLookup_mapSet_self]
      rw [if_neg (show ¬ now ≥ now + rl.config.windowMs by omega)]
      omega
  · intro r h hr
    have hc : RateLimiter.canProceed rl now "weather-api" =
        (⟨rl.config,
          mapSet rl.requests "weather-api" ⟨1, now + rl.config.windowMs⟩⟩, ⟨true, none⟩) := by
      simp only [RateLimiter.canProceed, h]
      rw [if_pos hr]
    constructor
    · simp [getRateLimitInfo, hc]
    · simp only [getRateLimitInfo, hc]
      simp only [RateLimiter.getRemainingRequests, h, mapLookup_mapSet_self]
      rw [if_neg (show ¬ now ≥ now + rl.config.windowMs by omega), if_pos hr]
      omega
  · intro r h hr hcnt
    have hc : RateLimiter.canProceed rl now "weather-api" =
        (⟨rl.config,
          mapSet rl.requests "weather-api" ⟨r.count + 1, r.resetTime⟩⟩, ⟨true, none⟩) := by
      simp only [RateLimiter.canProceed, h]
      rw [if_neg (show ¬ now ≥ r.resetTime by omega), if_pos hcnt]
    constructor
    · simp [getRateLimitInfo, hc]
    · simp only [getRateLimitInfo, hc]
      simp only [RateLimiter.getRemainingRequests, h, mapLookup_mapSet_self]
      rw [if_neg (show ¬ now ≥ r.resetTime by omega),
        if_neg (show ¬ now ≥ r.resetTime by omega)]
      omega
  · intro r h hr hcnt
    have hc : RateLimiter.canProceed rl now "weather-api" =
        (rl, ⟨false, some r.resetTime⟩) := by
      simp only [RateLimiter.canProceed, h]
      rw [if_neg (show ¬ now ≥ r.resetTime by omega), if_neg hcnt]
    simp [getRateLimitInfo, hc]

/-- Witness for C9 at a concrete input: introspection against an empty
limiter with the Tomorrow.io configuration creates a record and drops the
remaining count. -/
theorem getRateLimitInfo_mutates_witness :
    mapLookup (getRateLimitInfo ⟨tomorrowIORateLimiterConfig, []⟩ 0).1.requests
      "weather-api" = some ⟨1, 0 + tomorrowIORateLimiterConfig.windowMs⟩ ∧
    RateLimiter.getRemainingRequests (getRateLimitInfo ⟨tomorrowIORateLimiterConfig, []⟩ 0).1
        0 "weather-api" <
      RateLimiter.getRemainingRequests ⟨tomorrowIORateLimiterConfig, []⟩ 0 "weather-api" :=
  (getRateLimitInfo_mutates ⟨tomorrowIORateLimiterConfig, []⟩ 0
    (by decide) (by decide)).1 rfl

/-- C7: `evaluateCondition` implements `gt`/`gte`/`lt`/`lte` as the
standard comparisons, `eq` as `|observed - threshold| < 0.01`, and `ne`
as exactly its negation; in particular `35 gt 30` is true, `30 eq 30.005`
is true, and `30 eq 30.02` is false. -/
theorem evaluateCondition_semantics :
    (∀ v t : ℚ,
      (evaluateCondition v "gt" t = .ok true ↔ v > t) ∧
      (evaluateCondition v "gte" t = .ok true ↔ v ≥ t) ∧
      (evaluateCondition v "lt" t = .ok true ↔ v < t) ∧
      (evaluateCondition v "lte" t = .ok true ↔ v ≤ t) ∧
      (evaluateCondition v "eq" t = .ok true ↔ |v - t| <  0.01) ∧
      (evaluateCondition v "ne" t = .ok true ↔ ¬ |v - t| < 0.01)) ∧
    evaluateCondition 35 "gt" 30 = .ok true ∧
    evaluateCondition 30 "eq" 30.005 = .ok true ∧
    evaluateCondition 30 "eq" 30.02 = .ok false := by
  have hmain : ∀ v t : ℚ,
      (evaluateCondition v "gt" t = .ok true ↔ v > t) ∧
      (evaluateCondition v "gte" t = .ok true ↔ v ≥ t) ∧
      (evaluateCondition v "lt" t = .ok true ↔ v < t) ∧
      (evaluateCondition v "lte" t = .ok true ↔ v ≤ t) ∧
      (evaluateCondition v "eq" t = .ok true ↔ |v - t| <  0.01) ∧
      (evaluateCondition v "ne" t = .ok true ↔ ¬ |v - t| < 0.01) := by
    intro v t
    refine ⟨?_, ?_, ?_, ?_, ?_, ?_⟩ <;>
      simp [evaluateCondition, decide_eq_true_eq, not_lt]
  refine ⟨hmain, ((hmain 35 30).1).mpr (by norm_num), ?_, ?_⟩
  · exact ((hmain 30 30.005).2.2.2.2.1).mpr
      (by rw [abs_sub_lt_iff]; constructor <;> norm_num)
  · have habs : ¬ |(30 : ℚ) - 30.02| < 0.01 := by
      rw [show (30 : ℚ) - 30.02 = -(0.02) by norm_num, abs_neg,
        abs_of_nonneg (show (0 : ℚ) ≤ 0.02 by norm_num)]
      norm_num
    simp [evaluateCondition, habs]

/-! ## Retry-handler lemmas -/

/-- One-step unfolding of the retry loop when at least one attempt
remains. -/
theorem execGo_succ_eq {σ α : Type} (cfg : RetryConfig)
    (fn : σ → Except JsError α × σ) (sleep : Nat → σ → σ)
    (attempt delay fuel : Nat) (s : σ) :
    execGo cfg fn sleep attempt delay (fuel + 1) s =
      match fn s with
      | (.ok v, s') => (⟨true, some v, none, attempt⟩, [], s')
      | (.error e, s') =>
        if shouldNotRetry e.message then
          (⟨false, none, some e, attempt⟩, [], s')
        else if attempt == cfg.maxAttempts then
          (⟨false, none, some e, attempt⟩, [], s')
        else
          let s'' := sleep delay s'
          let next := execGo cfg fn sleep (attempt + 1)
            (min (delay * cfg.backoffMultiplier) cfg.maxDelay) fuel s''
          (next.1, delay :: next.2.1, next.2.2) := rfl

/-- If attempt `k` fails non-retryably and every earlier attempt (from the
current one on) fails retryably, the retry loop returns at attempt `k`
with that error. Stated for the pure instantiation of `execGo` in
`runRetry`, at a general loop position: the state is the count `st` of
calls already made, the current attempt is `st + 1`, and `n + 1` attempts
remain. -/
theorem execGo_shortCircuit {α : Type} (cfg : RetryConfig) (g : Nat → Except JsError α)
    (n : Nat) :
    ∀ st d k e, st + 1 + n = cfg.maxAttempts →
      st + 1 ≤ k → k ≤ cfg.maxAttempts →
      g k = .error e → shouldNotRetry e.message = true →
      (∀ i, st + 1 ≤ i → i < k → ∃ e', g i = .error e' ∧ shouldNotRetry e'.message = false) →
      (execGo cfg (pureStep g) pureSleep (st + 1) d (n + 1) st).1 =
        ⟨false, none, some e, k⟩ := by
  induction n with
  | zero =>
    intro st d k e htot hk1 hk2 hge hre _hpre
    have hk : k = st + 1 := by omega
    subst hk
    have hstep : pureStep g st = (.error e, st + 1) := by simp [pureStep, hge]
    rw [execGo_succ_eq, hstep]
    simp [hre]
  | succ n ih =>
    intro st d k e htot hk1 hk2 hge hre hpre
    rcases eq_or_lt_of_le hk1 with hk | hk
    · subst hk
      have hstep : pureStep g st = (.error e, st + 1) := by simp [pureStep, hge]
      rw [execGo_succ_eq, hstep]
      simp [hre]
    · obtain ⟨e', hge', hre'⟩ := hpre (st + 1) (le_refl _) hk
      have hne : ¬ (st + 1 = cfg.maxAttempts) := by omega
      have hstep : pureStep g st = (.error e', st + 1) := by simp [pureStep, hge']
      rw [execGo_succ_eq, hstep]
      simp only [hre', beq_iff_eq, hne, if_false, pureSleep]
      exact ih (st + 1) (min (d * cfg.backoffMultiplier) cfg.maxDelay) k e
        (by omega) (by omega) hk2 hge hre
        (fun i h1 h2 => hpre i (by omega) h2)

/-- If every attempt fails retryably, the retry loop exhausts all
remaining attempts, returns failure at attempt `maxAttempts`, and sleeps
exactly the capped-doubling schedule (one delay per non-final attempt). -/
theorem execGo_exhaust {α : Type} (cfg : RetryConfig) (g : Nat → Except JsError α)
    (hall : ∀ i, ∃ e, g i = .error e ∧ shouldNotRetry e.message = false) (n : Nat) :
    ∀ st d, st + 1 + n = cfg.maxAttempts →
      ∃ e, execGo cfg (pureStep g) pureSleep (st + 1) d (n + 1) st =
        (⟨false, none, some e, cfg.maxAttempts⟩, specBackoffDelays cfg d n,
         cfg.maxAttempts) := by
  induction n with
  | zero =>
    intro st d htot
    obtain ⟨e, hge, hre⟩ := hall (st + 1)
    refine ⟨e, ?_⟩
    have hst : st + 1 = cfg.maxAttempts := by omega
    have hstep : pureStep g st = (.error e, st + 1) := by simp [pureStep, hge]
    rw [execGo_succ_eq, hstep]
    simp [hre, hst, specBackoffDelays]
  | succ n ih =>
    intro st d htot
    obtain ⟨e, hge, hre⟩ := hall (st + 1)
    obtain ⟨eF, hF⟩ := ih (st + 1) (min (d * cfg.backoffMultiplier) cfg.maxDelay) (by omega)
    refine ⟨eF, ?_⟩
    have hne : ¬ (st + 1 = cfg.maxAttempts) := by omega
    have hstep : pureStep g st = (.error e, st + 1) := by simp [pureStep, hge]
    rw [execGo_succ_eq, hstep]
    simp [hre, beq_iff_eq, hne, pureSleep, hF, specBackoffDelays]

/-- C2: For any operation run by `RetryHandler.execute`: an attempt
failing with an error classified non-retryable (its message signals one
of the statuses 400/401/403/500/502/503, the `shouldNotRetry` table)
makes `execute` return immediately with `success = false` and `attempts`
the attempts made so far; if instead every attempt fails with a
retryable error (rate-limit and network-level failures included),
`execute` retries until all `maxAttempts` attempts are exhausted and
returns `success = false` with `attempts = maxAttempts`. -/
theorem retry_errorClassification {α : Type} (cfg : RetryConfig)
    (g : Nat → Except JsError α) (hmax : 1 ≤ cfg.maxAttempts) :
    (∀ k e, 1 ≤ k → k ≤ cfg.maxAttempts → g k = .error e →
      shouldNotRetry e.message = true →
      (∀ i, 1 ≤ i → i < k → ∃ e', g i = .error e' ∧ shouldNotRetry e'.message = false) →
      (runRetry cfg g).1 = ⟨false, none, some e, k⟩) ∧
    ((∀ i, ∃ e, g i = .error e ∧ shouldNotRetry e.message = false) →
      (runRetry cfg g).1.success = false ∧ (runRetry cfg g).1.attempts = cfg.maxAttempts) := by
  have hfuel : cfg.maxAttempts - 1 + 1 = cfg.maxAttempts := by omega
  constructor
  · intro k e hk1 hk2 hge hre hpre
    show (execGo cfg (pureStep g) pureSleep 1 cfg.baseDelay cfg.maxAttempts 0).1 = _
    rw [← hfuel]
    exact execGo_shortCircuit cfg g (cfg.maxAttempts - 1) 0 cfg.baseDelay k e
      (by omega) hk1 hk2 hge hre (fun i h1 h2 => hpre i h1 h2)
  · intro hall
    obtain ⟨e, he⟩ := execGo_exhaust cfg g hall (cfg.maxAttempts - 1) 0 cfg.baseDelay
      (by omega)
    have he' : execGo cfg (pureStep g) pureSleep 1 cfg.baseDelay cfg.maxAttempts 0 =
        (⟨false, none, some e, cfg.maxAttempts⟩,
         specBackoffDelays cfg cfg.baseDelay (cfg.maxAttempts - 1), cfg.maxAttempts) := by
      conv_lhs => rw [← hfuel]
      exact he
    constructor
    · show (execGo cfg (pureStep g) pureSleep 1 cfg.baseDelay cfg.maxAttempts 0).1.success
          = false
      rw [he']
    · show (execGo cfg (pureStep g) pureSleep 1 cfg.baseDelay cfg.maxAttempts 0).1.attempts
          = cfg.maxAttempts
      rw [he']

/-- Witness for C2 at concrete inputs: an operation that always fails with
an error signalling status 400 short-circuits at attempt 1 under the
default configuration. -/
theorem retry_errorClassification_witness :
    (runRetry defaultRetryConfig
      (fun _ => (.error ⟨"Error", "Request failed with status code 400"⟩ :
        Except JsError Nat))).1 =
      ⟨false, none, some ⟨"Error", "Request failed with status code 400"⟩, 1⟩ :=
  (retry_errorClassification defaultRetryConfig
      (fun _ => .error ⟨"Error", "Request failed with status code 400"⟩)
      (by decide)).1 1 ⟨"Error", "Request failed with status code 400"⟩
    (by omega) (by decide) rfl (by decide) (fun i h1 h2 => by omega)

/-- C6: In a run in which every attempt fails retryably, the slept
delays follow exactly the spec's schedule — starting at `baseDelay`,
multiplied by `backoffMultiplier` after every failed attempt, capped at
`maxDelay`, with no sleep after the final attempt (`maxAttempts - 1`
sleeps in total) — and with the `defaultRetryHandler` configuration
(`maxAttempts = 3, baseDelay = 1000, backoffMultiplier = 2,
maxDelay = 5000`) the slept delays are `[1000, 2000]`, totalling 3000 ms. -/
theorem retry_backoffSchedule {α : Type} (cfg : RetryConfig) (g : Nat → Except JsError α)
    (hmax : 1 ≤ cfg.maxAttempts)
    (hall : ∀ i, ∃ e, g i = .error e ∧ shouldNotRetry e.message = false) :
    (runRetry cfg g).2 = specBackoffDelays cfg cfg.baseDelay (cfg.maxAttempts - 1) ∧
    (runRetry defaultRetryConfig g).2 = [1000, 2000] ∧
    ((runRetry defaultRetryConfig g).2).sum = 3000 := by
  have hcfg : ∀ cfg' : RetryConfig, 1 ≤ cfg'.maxAttempts →
      (runRetry cfg' g).2 = specBackoffDelays cfg' cfg'.baseDelay (cfg'.maxAttempts - 1) := by
    intro cfg' hmax'
    have hfuel : cfg'.maxAttempts - 1 + 1 = cfg'.maxAttempts := by omega
    obtain ⟨e, he⟩ := execGo_exhaust cfg' g hall (cfg'.maxAttempts - 1) 0 cfg'.baseDelay
      (by omega)
    have he' : execGo cfg' (pureStep g) pureSleep 1 cfg'.baseDelay cfg'.maxAttempts 0 =
        (⟨false, none, some e, cfg'.maxAttempts⟩,
         specBackoffDelays cfg' cfg'.baseDelay (cfg'.maxAttempts - 1), cfg'.maxAttempts) := by
      conv_lhs => rw [← hfuel]
      exact he
    show (execGo cfg' (pureStep g) pureSleep 1 cfg'.baseDelay cfg'.maxAttempts 0).2.1 = _
    rw [he']
  refine ⟨hcfg cfg hmax, ?_, ?_⟩
  · rw [hcfg defaultRetryConfig (by decide)]
    decide
  · rw [hcfg defaultRetryConfig (by decide)]
    decide

/-- Witness for C6 at concrete inputs: an always-retryably-failing
operation under the default configuration sleeps `[1000, 2000]`. -/
theorem retry_backoffSchedule_witness :
    (runRetry defaultRetryConfig
      (fun _ => (.error ⟨"Error", "connection reset"⟩ : Except JsError Nat))).2 =
        specBackoffDelays defaultRetryConfig defaultRetryConfig.baseDelay
          (defaultRetryConfig.maxAttempts - 1) ∧
    (runRetry defaultRetryConfig
      (fun _ => (.error ⟨"Error", "connection reset"⟩ : Except JsError Nat))).2 =
        [1000, 2000] ∧
    ((runRetry defaultRetryConfig
      (fun _ => (.error ⟨"Error", "connection reset"⟩ : Except JsError Nat))).2).sum =
        3000 :=
  retry_backoffSchedule defaultRetryConfig
    (fun _ => .error ⟨"Error", "connection reset"⟩) (by decide)
    (fun _ => ⟨⟨"Error", "connection reset"⟩, rfl, by decide⟩)

/-! ## Weather-client pipeline lemmas -/

/-- When the shared limiter holds a live, exhausted window for
"weather-api", `fetchWeatherData` rejects with the interceptor's
`RateLimitError` (carrying the window's reset instant) before any network
exchange, and leaves the whole state unchanged. -/
theorem fetchWeatherData_denied (iso : Nat → String) (net : Nat → NetResp)
    (location coords : String) (s : SysState) (r : RequestRecord)
    (hloc : parseLocation location = .ok coords)
    (hcfg : s.limiter.config = tomorrowIORateLimiterConfig)
    (hrec : mapLookup s.limiter.requests "weather-api" = some r)
    (htime : s.now < r.resetTime)
    (hcount : ¬ r.count < 35) :
    fetchWeatherData iso net location s =
      (.error ⟨"RateLimitError", rlDeniedMsg (iso r.resetTime)⟩, s) := by
  have hcp : RateLimiter.canProceed s.limiter s.now "weather-api" =
      (s.limiter, ⟨false, some r.resetTime⟩) := by
    simp only [RateLimiter.canProceed, hrec]
    rw [if_neg (show ¬ s.now ≥ r.resetTime by omega),
      if_neg (show ¬ r.count < s.limiter.config.maxRequests by rw [hcfg]; exact hcount)]
  have hz : (r.resetTime == 0) = false := by
    simp only [beq_eq_false_iff_ne, ne_eq]
    omega
  simp only [fetchWeatherData, hloc, hcp, hz]
  simp

/-- A location that resolves to neither a coordinate pair nor a known
city makes `fetchWeatherData` throw the location-not-supported error
before any rate-limiter or network involvement, leaving the state
unchanged. -/
theorem fetchWeatherData_locationError (iso : Nat → String) (net : Nat → NetResp)
    (location msg : String) (s : SysState)
    (hloc : parseLocation location = .error msg) :
    fetchWeatherData iso net location s = (.error ⟨"Error", msg⟩, s) := by
  simp only [fetchWeatherData, hloc]

/-- A run of `defaultRetryHandler.execute` whose three attempts all fail
with the same retryable error: attempts at clock offsets 0, 1000 and
3000, sleeps of 1000 then 2000 in between, and failure after attempt 3. -/
theorem execute_default_threeFailures
    (fn : SysState → Except JsError WeatherData × SysState) (s : SysState) (err : JsError)
    (hre : shouldNotRetry err.message = false)
    (h0 : fn s = (.error err, s))
    (h1 : fn (sleepSys 1000 s) = (.error err, sleepSys 1000 s))
    (h2 : fn (sleepSys 2000 (sleepSys 1000 s)) =
      (.error err, sleepSys 2000 (sleepSys 1000 s))) :
    execute defaultRetryConfig fn sleepSys s =
      (⟨false, none, some err, 3⟩, [1000, 2000], sleepSys 2000 (sleepSys 1000 s)) := by
  have hd : defaultRetryConfig = ⟨3, 1000, 5000, 2⟩ := by decide
  have e3 : execGo (⟨3, 1000, 5000, 2⟩ : RetryConfig) fn sleepSys 3 4000 (0 + 1)
      (sleepSys 2000 (sleepSys 1000 s)) =
      (⟨false, none, some err, 3⟩, [], sleepSys 2000 (sleepSys 1000 s)) := by
    rw [execGo_succ_eq, h2]
    simp [hre]
  have e2 : execGo (⟨3, 1000, 5000, 2⟩ : RetryConfig) fn sleepSys 2 2000 (1 + 1)
      (sleepSys 1000 s) =
      (⟨false, none, some err, 3⟩, [2000], sleepSys 2000 (sleepSys 1000 s)) := by
    rw [execGo_succ_eq, h1]
    simp only [hre]
    rw [if_neg (by simp), if_neg (by simp)]
    rw [show min (2000 * (⟨3, 1000, 5000, 2⟩ : RetryConfig).backoffMultiplier)
        (⟨3, 1000, 5000, 2⟩ : RetryConfig).maxDelay = 4000 by norm_num]
    rw [e3]
  have e1 : execGo (⟨3, 1000, 5000, 2⟩ : RetryConfig) fn sleepSys 1 1000 (2 + 1) s =
      (⟨false, none, some err, 3⟩, [1000, 2000], sleepSys 2000 (sleepSys 1000 s)) := by
    rw [execGo_succ_eq, h0]
    simp only [hre]
    rw [if_neg (by simp), if_neg (by simp)]
    rw [show min (1000 * (⟨3, 1000, 5000, 2⟩ : RetryConfig).backoffMultiplier)
        (⟨3, 1000, 5000, 2⟩ : RetryConfig).maxDelay = 2000 by norm_num]
    rw [e2]
  rw [hd]
  show execGo (⟨3, 1000, 5000, 2⟩ : RetryConfig) fn sleepSys 1 1000 (2 + 1) s = _
  exact e1

/-- C1 (amended): On a cache miss, if the shared "weather-api" window
is exhausted throughout the run, each attempt's request interceptor
rejects with the `RateLimitError` carrying the reset instant before any
network exchange — but because that error is classified retryable, the
denial is retried: it consumes all 3 retry attempts and the 1000 + 2000 ms
backoff sleeps before `getCurrentWeather` fails with the `RateLimitError`
(the final state keeps the limiter and network-exchange count of the
initial one, with the clock advanced by the 3000 ms slept). -/
theorem rateLimitDenial_consumesRetries (iso : Nat → String) (net : Nat → NetResp)
    (location coords : String) (s : SysState) (r : RequestRecord)
    (hmiss : (SimpleCache.get s.weatherCache s.now ("weather:" ++ location)).2 = none)
    (hloc : parseLocation location = .ok coords)
    (hcfg : s.limiter.config = tomorrowIORateLimiterConfig)
    (hrec : mapLookup s.limiter.requests "weather-api" = some r)
    (hcount : ¬ r.count < 35)
    (htime : s.now + 3000 < r.resetTime)
    (hretry : shouldNotRetry (rlDeniedMsg (iso r.resetTime)) = false) :
    getCurrentWeather iso net location s =
      (.error ⟨"RateLimitError", rlDeniedMsg (iso r.resetTime)⟩,
       sleepSys 2000 (sleepSys 1000
         { s with weatherCache :=
             (SimpleCache.get s.weatherCache s.now ("weather:" ++ location)).1 }),
       ⟨3, [1000, 2000]⟩) := by
  have hget : SimpleCache.get s.weatherCache s.now ("weather:" ++ location) =
      ((SimpleCache.get s.weatherCache s.now ("weather:" ++ location)).1, none) := by
    rw [← hmiss]
  have hf0 : fetchWeatherData iso net location
      { s with weatherCache :=
          (SimpleCache.get s.weatherCache s.now ("weather:" ++ location)).1 } =
      (.error ⟨"RateLimitError", rlDeniedMsg (iso r.resetTime)⟩,
       { s with weatherCache :=
           (SimpleCache.get s.weatherCache s.now ("weather:" ++ location)).1 }) :=
    fetchWeatherData_denied iso net location coords _ r hloc hcfg hrec
      (by show s.now < r.resetTime; omega) hcount
  have hf1 : fetchWeatherData iso net location
      (sleepSys 1000 { s with weatherCache :=
          (SimpleCache.get s.weatherCache s.now ("weather:" ++ location)).1 }) =
      (.error ⟨"RateLimitError", rlDeniedMsg (iso r.resetTime)⟩,
       sleepSys 1000 { s with weatherCache :=
           (SimpleCache.get s.weatherCache s.now ("weather:" ++ location)).1 }) :=
    fetchWeatherData_denied iso net location coords _ r hloc hcfg hrec
      (by show s.now + 1000 < r.resetTime; omega) hcount
  have hf2 : fetchWeatherData iso net location
      (sleepSys 2000 (sleepSys 1000 { s with weatherCache :=
          (SimpleCache.get s.weatherCache s.now ("weather:" ++ location)).1 })) =
      (.error ⟨"RateLimitError", rlDeniedMsg (iso r.resetTime)⟩,
       sleepSys 2000 (sleepSys 1000 { s with weatherCache :=
           (SimpleCache.get s.weatherCache s.now ("weather:" ++ location)).1 })) :=
    fetchWeatherData_denied iso net location coords _ r hloc hcfg hrec
      (by show s.now + 1000 + 2000 < r.resetTime; omega) hcount
  have hexec := execute_default_threeFailures (fetchWeatherData iso net location)
    { s with weatherCache :=
        (SimpleCache.get s.weatherCache s.now ("weather:" ++ location)).1 }
    ⟨"RateLimitError", rlDeniedMsg (iso r.resetTime)⟩ hretry hf0 hf1 hf2
  simp only [getCurrentWeather]
  rw [hget]
  simp only [hexec]
  simp

/-- A fixed ISO-rendering of instants (the concrete stand-in for
`Date.prototype.toISOString` in closed runs). -/
def isoFixed : Nat → String := fun _ => "2026-01-01T00:00:00.000Z"

/-- A network oracle that is never reached in the runs that use it. -/
def netUnreachable : Nat → NetResp := fun _ => .networkError "unreachable"

/-- Concrete initial state with an empty cache and an exhausted
"weather-api" window (count 35 of 35, resetting at instant 10^9). -/
def deniedState : SysState :=
  ⟨0, ⟨600000, []⟩, ⟨tomorrowIORateLimiterConfig, [("weather-api", ⟨35, 1000000000⟩)]⟩, 0⟩

/-- C1 (counterexample): At a concrete cache-missing call under an
exhausted window, the rate-limit denial is NOT failed through before the
retry handler: the run reports 3 attempts and sleeps 1000 + 2000 ms —
refuting that the denial "does not consume any retry attempts" — even
though the final error is the interceptor's `RateLimitError` and no
network exchange ever happens. -/
theorem rateLimitDenial_counterexample :
    (getCurrentWeather isoFixed netUnreachable "32.0853,34.7818" deniedState).2.2.attempts
      = 3 ∧
    (getCurrentWeather isoFixed netUnreachable "32.0853,34.7818" deniedState).2.2.sleeps
      = [1000, 2000] ∧
    (getCurrentWeather isoFixed netUnreachable "32.0853,34.7818" deniedState).2.1.netCalls
      = 0 ∧
    (getCurrentWeather isoFixed netUnreachable "32.0853,34.7818" deniedState).1 =
      .error ⟨"RateLimitError",
        "Rate limit exceeded. Try again after 2026-01-01T00:00:00.000Z"⟩ := by
  decide

/-- Witness for the amended C1 at the concrete denied state. -/
theorem rateLimitDenial_consumesRetries_witness :
    getCurrentWeather isoFixed netUnreachable "32.0853,34.7818" deniedState =
      (.error ⟨"RateLimitError", rlDeniedMsg (isoFixed 1000000000)⟩,
       sleepSys 2000 (sleepSys 1000
         { deniedState with weatherCache :=
             (SimpleCache.get deniedState.weatherCache deniedState.now
               ("weather:" ++ "32.0853,34.7818")).1 }),
       ⟨3, [1000, 2000]⟩) :=
  rateLimitDenial_consumesRetries isoFixed netUnreachable "32.0853,34.7818"
    "32.0853,34.7818" deniedState ⟨35, 1000000000⟩ (by decide) (by decide) rfl
    (by decide) (by decide) (by decide) (by decide)

/-- C3 (counterexample): The source's coordinate regex
`^(-?\d+\.?\d*),(-?\d+\.?\d*)$` accepts `"1.,2"` — `parseLocation` treats
it as a coordinate pair — while the regex named by the claim,
`^-?\d+(\.\d+)?,-?\d+(\.\d+)?$`, rejects it. -/
theorem coordRegex_counterexample :
    coordMatch "1.,2" = true ∧ specCoordMatch "1.,2" = false ∧
    parseLocation "1.,2" = .ok "1.,2" := by decide

/-- C3 (amended): `getCurrentWeather` treats its location as a
coordinate pair exactly when it matches the source regex
`^(-?\d+\.?\d*),(-?\d+\.?\d*)$` (digits with an optional dot and optional
fraction); every other location is resolved through the city table (the
in-code geocoding collaborator); and a location resolvable by neither
makes `parseLocation` throw the location-not-supported error, so a
cache-missing `getCurrentWeather` call fails with that error (after the
retry handler exhausts its 3 attempts on it, the error being classified
retryable whenever its text signals no status). -/
theorem parseLocation_classification (location : String) :
    (coordMatch location = true → parseLocation location = .ok location) ∧
    (coordMatch location = false →
      ∀ c, mapLookup cityCoordinates location = some c → parseLocation location = .ok c) ∧
    (coordMatch location = false → mapLookup cityCoordinates location = none →
      parseLocation location = .error (locationErrorMsg location)) ∧
    (∀ (iso : Nat → String) (net : Nat → NetResp) (s : SysState),
      parseLocation location = .error (locationErrorMsg location) →
      (SimpleCache.get s.weatherCache s.now ("weather:" ++ location)).2 = none →
      shouldNotRetry (locationErrorMsg location) = false →
      getCurrentWeather iso net location s =
        (.error ⟨"Error", locationErrorMsg location⟩,
         sleepSys 2000 (sleepSys 1000
           { s with weatherCache :=
               (SimpleCache.get s.weatherCache s.now ("weather:" ++ location)).1 }),
         ⟨3, [1000, 2000]⟩)) := by
  refine ⟨?_, ?_, ?_, ?_⟩
  · intro h
    simp [parseLocation, h]
  · intro h c hc
    simp [parseLocation, h, hc]
  · intro h hc
    simp [parseLocation, h, hc]
  · intro iso net s hloc hmiss hretry
    have hget : SimpleCache.get s.weatherCache s.now ("weather:" ++ location) =
        ((SimpleCache.get s.weatherCache s.now ("weather:" ++ location)).1, none) := by
      rw [← hmiss]
    have hexec := execute_default_threeFailures (fetchWeatherData iso net location)
      { s with weatherCache :=
          (SimpleCache.get s.weatherCache s.now ("weather:" ++ location)).1 }
      ⟨"Error", locationErrorMsg location⟩ hretry
      (fetchWeatherData_locationError iso net location _ _ hloc)
      (fetchWeatherData_locationError iso net location _ _ hloc)
      (fetchWeatherData_locationError iso net location _ _ hloc)
    simp only [getCurrentWeather]
    rw [hget]
    simp only [hexec]
    simp

/-- Concrete initial state with an empty cache and an empty limiter. -/
def freshState : SysState := ⟨0, ⟨600000, []⟩, ⟨tomorrowIORateLimiterConfig, []⟩, 0⟩

/-- Witness for the amended C3 at the concrete location "Atlantis". -/
theorem parseLocation_classification_witness :
    parseLocation "Atlantis" = .error (locationErrorMsg "Atlantis") ∧
    getCurrentWeather isoFixed netUnreachable "Atlantis" freshState =
      (.error ⟨"Error", locationErrorMsg "Atlantis"⟩,
       sleepSys 2000 (sleepSys 1000
         { freshState with weatherCache :=
             (SimpleCache.get freshState.weatherCache freshState.now
               ("weather:" ++ "Atlantis")).1 }),
       ⟨3, [1000, 2000]⟩) :=
  ⟨(parseLocation_classification "Atlantis").2.2.1 (by decide) (by decide),
   (parseLocation_classification "Atlantis").2.2.2 isoFixed netUnreachable freshState
     (by decide) (by decide) (by decide)⟩

/-! ## Evaluation-cycle lemmas -/

/-- The imperative `results`/history accumulation of `evaluateAllAlerts`
appends exactly the successful outcomes of the per-alert evaluations, in
order, with the state threaded through every alert. -/
theorem evaluateAllLoop_append (iso : Nat → String) (net : Nat → NetResp) :
    ∀ (alerts : List Alert) (results : List AlertEvaluationResult)
      (history : List AlertHistoryRow) (s : SysState),
      evaluateAllLoop iso net alerts results history s =
        (results ++ (alertOutcomes iso net alerts s).1.filterMap Except.toOption,
         history ++ ((alertOutcomes iso net alerts s).1.filterMap Except.toOption).map
           (fun r => ⟨r.alertId, r.isTriggered, r.currentValue, r.threshold⟩),
         (alertOutcomes iso net alerts s).2) := by
  intro alerts
  induction alerts with
  | nil =>
    intro results history s
    simp [evaluateAllLoop, alertOutcomes]
  | cons a rest ih =>
    intro results history s
    rcases h : evaluateAlert iso net a s with ⟨o, s'⟩
    rcases o with e | r
    · simp [evaluateAllLoop, alertOutcomes, h, ih, Except.toOption]
    · simp [evaluateAllLoop, alertOutcomes, h, ih, Except.toOption]

/-- A network oracle whose first exchange is an HTTP 500 and whose later
exchanges succeed with temperature 35. -/
def net500then35 : Nat → NetResp := fun n =>
  if n == 0 then .httpError 500 none
  else .success { temperature := some 35 } (some "2026-01-01T00:00:00Z")

/-- Two active rules: the first will hit the failing exchange, the second
the succeeding one. -/
def twoRules : List Alert :=
  [⟨"a1", "failing rule", "1,2", "temperature", "gt", 30⟩,
   ⟨"a2", "succeeding rule", "3,4", "temperature", "gt", 30⟩]

/-- C8: An evaluation cycle records exactly one result (and one
history row) per successfully evaluated rule, in order; a failing rule
contributes nothing but does not stop the cycle, which threads on through
every remaining rule. Concretely: over two active rules of which the
first fails upstream (HTTP 500) and the second succeeds and triggers, the
cycle completes with exactly one `EvaluationRecord`, `isTriggered = true`,
for the succeeding rule. -/
theorem cycle_failureContainment :
    (∀ (iso : Nat → String) (net : Nat → NetResp) (alerts : List Alert) (s : SysState),
      (evaluateAllAlerts iso net alerts s).1 =
        (alertOutcomes iso net alerts s).1.filterMap Except.toOption ∧
      (evaluateAllAlerts iso net alerts s).2.1 =
        ((alertOutcomes iso net alerts s).1.filterMap Except.toOption).map
          (fun r => ⟨r.alertId, r.isTriggered, r.currentValue, r.threshold⟩) ∧
      (evaluateAllAlerts iso net alerts s).2.2 = (alertOutcomes iso net alerts s).2) ∧
    (evaluateAllAlerts isoFixed net500then35 twoRules freshState).1 =
      [⟨"a2", "succeeding rule", "3,4", "temperature", 30, 35, true⟩] ∧
    (evaluateAllAlerts isoFixed net500then35 twoRules freshState).2.1 =
      [⟨"a2", true, 35, 30⟩] := by
  refine ⟨?_, by decide, by decide⟩
  intro iso net alerts s
  have h := evaluateAllLoop_append iso net alerts [] [] s
  refine ⟨?_, ?_, ?_⟩
  · show (evaluateAllLoop iso net alerts [] [] s).1 = _
    rw [h]
    simp
  · show (evaluateAllLoop iso net alerts [] [] s).2.1 = _
    rw [h]
    simp
  · show (evaluateAllLoop iso net alerts [] [] s).2.2 = _
    rw [h]

end WeatherAlert
